import Mathlib

/-!
Shallow embedding of the core of the cppdap repository (a C++ Debug Adapter
Protocol library), used to check the natural-language specification against
the code.

The embedding covers:
* the JSON value model manipulated through nlohmann::json (`JSON`);
* the dap value model (`DapAny`, with dap::object as an association list);
* the JSON codec of src/json_serializer.cpp (`dap::json::Deserializer` and
  `dap::json::Serializer`), including the `NullDeserializer` used for missing
  struct fields;
* the request/response plumbing of include/dap/session.h (`Error`,
  `ResponseOrError`, the request-handler adapter of `registerHandler`, and the
  failure path of `Session::send`);
* the socket read wrapper of src/socket.cpp;
* the content-stream reader (modelled from the spec, the implementation file
  is not among the sources).
-/

/-! ## JSON value model (nlohmann::json)

nlohmann::json distinguishes integer-stored numbers (`is_number_integer`)
from float-stored numbers (`is_number_float`); `is_number` accepts both.
The float payload (a C++ double) is modelled as a rational number.
An object is an ordered list of members; an array is a list of nodes. -/

inductive JSON : Type where
  | null : JSON
  | bool (b : Bool) : JSON
  | intg (n : Int) : JSON
  | flt (q : ℚ) : JSON
  | str (s : String) : JSON
  | obj (fields : List (String × JSON)) : JSON
  | arr (elems : List JSON) : JSON

def JSON.isBool : JSON → Bool
  | .bool _ => true
  | _ => false

def JSON.isIntg : JSON → Bool
  | .intg _ => true
  | _ => false

def JSON.isFlt : JSON → Bool
  | .flt _ => true
  | _ => false

def JSON.isStr : JSON → Bool
  | .str _ => true
  | _ => false

def JSON.isObj : JSON → Bool
  | .obj _ => true
  | _ => false

/-- nlohmann::json `is_structured()`: true for objects and arrays. -/
def JSON.isStructured : JSON → Bool
  | .obj _ => true
  | .arr _ => true
  | _ => false

/-- Lookup of a member in a JSON object member list (`json->find(name)`). -/
def jsonLookup : List (String × JSON) → String → Option JSON
  | [], _ => none
  | (k, v) :: rest, name => if k = name then some v else jsonLookup rest name

/-- nlohmann::json iteration via `items()`: an object yields its members, an
array yields its elements keyed by the decimal index, null yields nothing,
and any other (primitive) node yields a single item with the empty key. -/
def jsonItems : JSON → List (String × JSON)
  | .null => []
  | .obj fields => fields
  | .arr elems => elems.enum.map (fun p => (toString p.1, p.2))
  | j => [("", j)]

/-! ## dap value model

`dap::any` as it can appear inside a `dap::object` decoded from JSON:
the six leaf variants plus arrays of `any`.  `dap::integer` is an `int64_t`,
but both the serializer and the deserializer of src/json_serializer.cpp move
integers through a C `int` (`json->get<int>()` and the `(int)` cast), which
wraps the value to 32 bits; `wrap32` models that narrowing conversion. -/

inductive DapAny : Type where
  | null : DapAny
  | boolean (b : Bool) : DapAny
  | integer (i : Int) : DapAny
  | number (q : ℚ) : DapAny
  | string (s : String) : DapAny
  | object (entries : List (String × DapAny)) : DapAny
  | array (elems : List DapAny) : DapAny

/-- Narrowing of a 64-bit integer value through a 32-bit C `int`. -/
def wrap32 (n : Int) : Int := (n + 2 ^ 31) % 2 ^ 32 - 2 ^ 31

/-- The variants of `dap::any` that `json::Serializer::serialize(const any&)`
handles (boolean, integer, number, string, null). -/
def DapAny.isPrimVariant : DapAny → Bool
  | .null => true
  | .boolean _ => true
  | .integer _ => true
  | .number _ => true
  | .string _ => true
  | _ => false

/-- Replace the value stored under a key, or append the binding
(assignment to a map entry, `(*v)[key] = val`). -/
def mapUpdate {β : Type} : List (String × β) → String → β → List (String × β)
  | [], k, v => [(k, v)]
  | (k1, v1) :: rest, k, v =>
    if k1 = k then (k, v) :: rest else (k1, v1) :: mapUpdate rest k v

/-! ## dap::json::Deserializer (src/json_serializer.cpp)

Each C++ `deserialize` overload returns `bool` and writes through a pointer;
it is embedded as a function returning `Option` of the decoded value. -/

/-- `Deserializer::deserialize(dap::boolean*)`: succeeds exactly on a JSON
boolean node (src/json_serializer.cpp lines 59-65). -/
def deserializeBoolean : JSON → Option Bool
  | .bool b => some b
  | _ => none

/-- `Deserializer::deserialize(dap::integer*)`: succeeds exactly on an
integer-stored JSON number; the value goes through `json->get<int>()`
(src/json_serializer.cpp lines 67-73). -/
def deserializeInteger : JSON → Option Int
  | .intg n => some (wrap32 n)
  | _ => none

/-- `Deserializer::deserialize(dap::number*)`: succeeds on any JSON number,
integer-stored or float-stored (src/json_serializer.cpp lines 75-81). -/
def deserializeNumber : JSON → Option ℚ
  | .intg n => some (n : ℚ)
  | .flt q => some q
  | _ => none

/-- `Deserializer::deserialize(dap::string*)`: succeeds exactly on a JSON
string node (src/json_serializer.cpp lines 83-89). -/
def deserializeString : JSON → Option String
  | .str s => some s
  | _ => none

/-- `Deserializer::deserialize(dap::any*)` (src/json_serializer.cpp lines
104-119): checks, in order, boolean, float number, integer number, string and
null; every other node kind (object, array) falls into the `else` branch and
fails. -/
def deserializeAny : JSON → Option DapAny
  | .bool b => some (.boolean b)
  | .flt q => some (.number q)
  | .intg n => some (.integer (wrap32 n))
  | .str s => some (.string s)
  | .null => some .null
  | _ => none

/-- The loop body of `Deserializer::deserialize(dap::object*)`: each item's
value is deserialized as `any` and stored under the item's key. -/
def deserializeObjectItems :
    List (String × JSON) → List (String × DapAny) →
    Option (List (String × DapAny))
  | [], acc => some acc
  | (k, jv) :: rest, acc =>
    match deserializeAny jv with
    | none => none
    | some v => deserializeObjectItems rest (mapUpdate acc k v)

/-- `Deserializer::deserialize(dap::object*)` (src/json_serializer.cpp lines
91-102): iterates `json->items()` — with NO check that the node is an object —
and deserializes every item value as `any`. -/
def deserializeObject (j : JSON) : Option (List (String × DapAny)) :=
  deserializeObjectItems (jsonItems j) []

/-! ## dap::json::Serializer (src/json_serializer.cpp)

A C++ `Serializer` wraps a pointer to an nlohmann::json node and mutates it;
it is embedded as a function from the node's current value to an `Option` of
its new value (`none` models a `false` return).  A freshly constructed
`Serializer` owns a default-constructed node, i.e. JSON null. -/

/-- nlohmann::json `operator[](key)` used for writing: a null node first
becomes an empty object, a member is created (null) when absent; any other
node kind throws (modelled as `none`).  This returns the member list the
access operates on. -/
def jsonFieldsForWrite : JSON → Option (List (String × JSON))
  | .null => some []
  | .obj fields => some fields
  | _ => none

/-- The member list after `operator[](key)` ensured the member exists
(inserting a null member at the end when absent). -/
def memberEnsure (fields : List (String × JSON)) (k : String) :
    List (String × JSON) :=
  match jsonLookup fields k with
  | some _ => fields
  | none => fields ++ [(k, .null)]

/-- The value of member `k` (after `memberEnsure`, always present;
defaults to null). -/
def memberGet (fields : List (String × JSON)) (k : String) : JSON :=
  match jsonLookup fields k with
  | some v => v
  | none => .null

/-- nlohmann::json `erase(key)`: drop the member named `k`. -/
def memberErase (fields : List (String × JSON)) (k : String) :
    List (String × JSON) :=
  fields.filter (fun kv => kv.1 ≠ k)

/-- `Serializer::serialize(const dap::any&)` (src/json_serializer.cpp lines
198-213): writes the stored variant for boolean, integer (through an `(int)`
cast), number, string; for the null variant it leaves the node untouched;
any other variant (object, array, ...) returns false. -/
def serializeAny : DapAny → JSON → Option JSON
  | .boolean b, _ => some (.bool b)
  | .integer i, _ => some (.intg (wrap32 i))
  | .number q, _ => some (.flt q)
  | .string s, _ => some (.str s)
  | .null, j => some j
  | _, _ => none

/-- The loop of `Serializer::serialize(const dap::object&)`
(src/json_serializer.cpp lines 188-196): for each entry, a sub-serializer on
`(*json)[it.first]` serializes the entry value as `any`. -/
def serializeObjectEntries :
    List (String × DapAny) → JSON → Option JSON
  | [], j => some j
  | (k, v) :: rest, j =>
    match jsonFieldsForWrite j with
    | none => none
    | some fields =>
      let fields1 := memberEnsure fields k
      match serializeAny v (memberGet fields1 k) with
      | none => none
      | some jv => serializeObjectEntries rest (.obj (mapUpdate fields1 k jv))

/-- `Serializer s; s.serialize(v)` for a `dap::object` value `v`: the fresh
serializer's node is JSON null. -/
def serializeObject (entries : List (String × DapAny)) : Option JSON :=
  serializeObjectEntries entries .null

/-- `Serializer::field(name, cb)` (src/json_serializer.cpp lines 240-252):
a sub-serializer on `(*json)[name]` runs the callback; if the callback marked
the sub-serializer removed (`Serializer::remove`), the member is erased.  The
callback returns the new member value paired with the removed flag, or `none`
for failure. -/
def serializerField (j : JSON) (name : String)
    (cb : JSON → Option (JSON × Bool)) : Option JSON :=
  match jsonFieldsForWrite j with
  | none => none
  | some fields =>
    let fields1 := memberEnsure fields name
    match cb (memberGet fields1 name) with
    | none => none
    | some (jv, removed) =>
      let fields2 := mapUpdate fields1 name jv
      some (.obj (if removed then memberErase fields2 name else fields2))

/-- Modelled from the spec: `Serializer::serialize(const dap::optional<T>&)`
lives in include/dap/serialization.h, which is not among the sources.  Per the
spec (§4.3), an absent optional marks the enclosing struct field removed (and
succeeds); a present optional is serialized as `T`.  The sub-serializer's
removed flag is the second component of the result. -/
def serializeOptional {α : Type} (ser : α → JSON → Option JSON) :
    Option α → JSON → Option (JSON × Bool)
  | none, j => some (j, true)
  | some v, j => (ser v j).map (fun jv => (jv, false))

/-! ## The Deserializer interface and the NullDeserializer

`dap::Deserializer` is an abstract interface; the codec hands field callbacks
either a JSON-backed `dap::json::Deserializer` or the failing
`NullDeserializer` (src/json_serializer.cpp lines 21-40).  The two
implementations are embedded as the two constructors of `Dsrlzr`, and each
virtual method as a function dispatching on the constructor. -/

inductive Dsrlzr : Type where
  | json (j : JSON) : Dsrlzr
  | nullDeser : Dsrlzr

/-- Virtual `deserialize(dap::boolean*)`: JSON-backed behavior, or the
`NullDeserializer` override returning false. -/
def dsrlzrBoolean : Dsrlzr → Option Bool
  | .json j => deserializeBoolean j
  | .nullDeser => none

/-- Virtual `deserialize(dap::integer*)`. -/
def dsrlzrInteger : Dsrlzr → Option Int
  | .json j => deserializeInteger j
  | .nullDeser => none

/-- Virtual `deserialize(dap::number*)`. -/
def dsrlzrNumber : Dsrlzr → Option ℚ
  | .json j => deserializeNumber j
  | .nullDeser => none

/-- Virtual `deserialize(dap::string*)`. -/
def dsrlzrString : Dsrlzr → Option String
  | .json j => deserializeString j
  | .nullDeser => none

/-- Virtual `deserialize(dap::object*)`. -/
def dsrlzrObject : Dsrlzr → Option (List (String × DapAny))
  | .json j => deserializeObject j
  | .nullDeser => none

/-- Virtual `deserialize(dap::any*)`. -/
def dsrlzrAny : Dsrlzr → Option DapAny
  | .json j => deserializeAny j
  | .nullDeser => none

/-- Virtual `count()` (`json->size()`; the NullDeserializer returns 0). -/
def dsrlzrCount : Dsrlzr → Nat
  | .json (.obj fields) => fields.length
  | .json (.arr elems) => elems.length
  | .json .null => 0
  | .json _ => 1
  | .nullDeser => 0

/-- Virtual `array(cb)` (src/json_serializer.cpp lines 125-137): fails unless
the node is a JSON array; otherwise runs the callback on a sub-deserializer
for each element, stopping at the first failure.  The NullDeserializer
override returns false. -/
def dsrlzrArray {α : Type} : Dsrlzr → (Dsrlzr → Option α) → Option (List α)
  | .json (.arr elems), cb => elems.mapM (fun e => cb (.json e))
  | .json _, _ => none
  | .nullDeser, _ => none

/-- Virtual `field(name, cb)` (src/json_serializer.cpp lines 139-152): fails
unless the node is structured; looks the member up, and when it is absent runs
the callback against `NullDeserializer::instance`.  (On a structured array
node `json->find(name)` finds nothing, so the callback also gets the
NullDeserializer.)  The NullDeserializer override returns false. -/
def dsrlzrField {α : Type} :
    Dsrlzr → String → (Dsrlzr → Option α) → Option α
  | .json j, name, cb =>
    if j.isStructured then
      match j with
      | .obj fields =>
        match jsonLookup fields name with
        | some jv => cb (.json jv)
        | none => cb .nullDeser
      | _ => cb .nullDeser
    else none
  | .nullDeser, _, _ => none

/-- Modelled from the spec: `Deserializer::deserialize(dap::optional<T>*)`
lives in include/dap/serialization.h, which is not among the sources.  Per the
spec (§4.3), a failed read of `T` leaves the optional absent and the optional
read itself succeeds. -/
def deserializeOptional {α : Type} (d : Dsrlzr) (readT : Dsrlzr → Option α) :
    Option (Option α) :=
  match readT d with
  | some v => some (some v)
  | none => some none

/-! ## include/dap/session.h: Error, ResponseOrError, handler adapter, send -/

/-- `dap::Error` (include/dap/session.h lines 64-73): an error message; the
empty message represents success. -/
structure DapError : Type where
  message : String

/-- `Error::operator bool()` (include/dap/session.h line 70):
`message.size() > 0`. -/
def errorBool (e : DapError) : Bool := decide (e.message.length > 0)

/-- `dap::ResponseOrError<T>` (include/dap/session.h lines 81-98): holds both
a response and an error; an empty error message represents success. -/
structure RespOrErr (R : Type) : Type where
  response : R
  error : DapError

/-- `ResponseOrError(const T& response)`: response set, error
default-constructed (empty message). -/
def RespOrErr.ofResponse {R : Type} (r : R) : RespOrErr R := ⟨r, ⟨""⟩⟩

/-- `ResponseOrError(const Error& error)`: error set, response
default-constructed. -/
def RespOrErr.ofError {R : Type} [Inhabited R] (e : DapError) : RespOrErr R :=
  ⟨default, e⟩

/-- A type descriptor (`const dap::TypeInfo*`), identified by its schema
name (include/dap/typeinfo.h). -/
structure TypeDesc : Type where
  name : String

/-- The two callbacks a generic request handler can invoke; used to observe
which one the adapter routed the handler result to. -/
inductive Routed (R : Type) : Type where
  | success (d : TypeDesc) (resp : R) : Routed R
  | failure (d : TypeDesc) (e : DapError) : Routed R

/-- The adapter lambda built by `Session::registerHandler` for a request
handler (include/dap/session.h lines 239-254): runs the handler on the
decoded arguments; if the resulting `ResponseOrError` carries an error
(`res.error` converts to true), calls `onError` with the Response type's
descriptor and that error, otherwise calls `onSuccess` with the descriptor
and the response body. -/
def registerHandlerAdapter {T R α : Type} (respDesc : TypeDesc)
    (handler : T → RespOrErr R)
    (onSuccess : TypeDesc → R → α) (onErrorCb : TypeDesc → DapError → α)
    (args : T) : α :=
  let res := handler args
  if errorBool res.error then onErrorCb respDesc res.error
  else onSuccess respDesc res.response

/-- `Session::send<T>(request)` (include/dap/session.h lines 278-295),
embedded as the state of the returned future.  The virtual generic `send`
(implemented in session.cpp, outside the serializer sources) is abstracted by
its boolean result `sent`; the response handler has not run at return time,
so on success the future is still pending, and on failure the promise is
fulfilled with `Error("Failed to send request")` before the future is
returned.  `none` is a pending future, `some` a fulfilled one. -/
def sessionSendRequest (R : Type) [Inhabited R] (sent : Bool) :
    Option (RespOrErr R) :=
  let slot : Option (RespOrErr R) := none
  let slot := if sent then slot
              else some (RespOrErr.ofError ⟨"Failed to send request"⟩)
  slot

/-! ## dap::Socket::Shared::read (src/socket.cpp lines 179-187) -/

/-- `Socket::Shared::read(buffer, bytes)`: returns 0 when the socket handle
is invalid; otherwise calls `recv`, whose signed result is abstracted as
`recvResult`, and returns `(len < 0) ? 0 : len` as a `size_t`.  The result is
embedded as an `Int` to let the spec's claim about negative returns be
stated. -/
def socketSharedRead (sockValid : Bool) (recvResult : Int) : Int :=
  if !sockValid then 0
  else if recvResult < 0 then 0 else recvResult

/-! ## Content framer, reader side

Modelled from the spec: src/content_stream.cpp (`dap::ContentReader`) is not
among the sources, only its test is.  Per the spec (§4.1 and §6), the reader
scans the byte stream for a `Content-Length` header — discarding the bytes
before it as garbage (resynchronization) — skips blanks after the colon,
parses the decimal length N, expects the `\r\n\r\n` header terminator, and
then returns exactly N payload bytes; it returns empty on end-of-stream
mid-header or mid-body. -/

/-- The bytes of the recognized header name, `"Content-Length:"`. -/
def clPat : List Char :=
  ['C', 'o', 'n', 't', 'e', 'n', 't', '-', 'L', 'e', 'n', 'g', 't', 'h', ':']

/-- The header terminator `"\r\n\r\n"`. -/
def crlf2 : List Char := ['\r', '\n', '\r', '\n']

/-- Scan the stream for the first occurrence of `pat`, discarding everything
before it; returns the remainder after `pat`, or `none` when the stream ends
without an occurrence. -/
def scanFor (pat : List Char) : List Char → Option (List Char)
  | [] => if pat.isPrefixOf ([] : List Char) then some [] else none
  | c :: rest =>
    if pat.isPrefixOf (c :: rest) then some ((c :: rest).drop pat.length)
    else scanFor pat rest

/-- Accumulate a decimal number from digit characters
(`len = len * 10 + (c - '0')`). -/
def parseDecimal (ds : List Char) : Nat :=
  ds.foldl (fun acc c => acc * 10 + (c.toNat - 48)) 0

/-- One `ContentReader::read()` call: scan for the `Content-Length` header,
skip spaces and tabs, parse the decimal length, require the `\r\n\r\n`
terminator, then take exactly that many body bytes.  Returns the payload and
the unconsumed remainder, or `none` for the empty result (end-of-stream or
malformed header). -/
def contentRead (s : List Char) : Option (List Char × List Char) :=
  match scanFor clPat s with
  | none => none
  | some afterHeader =>
    let afterBlanks := afterHeader.dropWhile (fun c => c = ' ' || c = '\t')
    let digits := afterBlanks.takeWhile Char.isDigit
    let afterDigits := afterBlanks.dropWhile Char.isDigit
    if digits = [] then none
    else
      let n := parseDecimal digits
      if crlf2.isPrefixOf afterDigits then
        let body := afterDigits.drop 4
        if n ≤ body.length then some (body.take n, body.drop n) else none
      else none

/-- Successive `read()` calls (bounded by `fuel`), collecting the returned
payloads until a read returns empty. -/
def contentReadAll : Nat → List Char → List (List Char)
  | 0, _ => []
  | fuel + 1, s =>
    match contentRead s with
    | none => []
    | some (p, rest) => p :: contentReadAll fuel rest

/-- A framed payload as `ContentWriter::write` emits it:
`Content-Length: <decimal>\r\n\r\n<payload>`, with `ds` the decimal digits of
the length. -/
def frameFor (ds : List Char) (p : List Char) : List Char :=
  clPat ++ [' '] ++ ds ++ crlf2 ++ p

/-- A stream of framed payloads, each preceded by a run of garbage bytes,
followed by trailing garbage. -/
def framedStream :
    List (List Char × List Char × List Char) → List Char → List Char
  | [], gEnd => gEnd
  | (g, ds, p) :: rest, gEnd => g ++ frameFor ds p ++ framedStream rest gEnd

/-- Well-formedness of one garbage-then-frame segment: the garbage carries no
colon (so it cannot contain nor complete a `Content-Length:` header), the
length digits are a nonempty run of decimal digits, and they denote the
payload's length. -/
def segOk (t : List Char × List Char × List Char) : Prop :=
  (∀ c ∈ t.1, c ≠ ':') ∧ t.2.1 ≠ [] ∧ (∀ c ∈ t.2.1, c.isDigit = true) ∧
    parseDecimal t.2.1 = t.2.2.length

/-- The JSON node that `serializeAny` produces for a primitive `dap::any`
variant written into a fresh (null) node; used to state serialization
results. -/
def primJson : DapAny → JSON
  | .boolean b => .bool b
  | .integer i => .intg (wrap32 i)
  | .number q => .flt q
  | .string s => .str s
  | _ => .null

/-! ## Theorems -/

theorem deserializeObjectItems_isSome (items : List (String × JSON)) :
    ∀ acc, (deserializeObjectItems items acc).isSome =
      items.all (fun kv => (deserializeAny kv.2).isSome) := by
  induction items with
  | nil => intro acc; rfl
  | cons kv rest ih =>
    intro acc
    obtain ⟨k, jv⟩ := kv
    simp only [deserializeObjectItems, List.all_cons]
    cases h : deserializeAny jv with
    | none => simp
    | some v => simp [ih]

/-- C1 counterexample: deserializing a JSON object node (here the spec's own
round-trip example `{"one":1,"two":2,"three":3}`) into a `dap::any` fails,
as does deserializing a JSON array node; the claim says both succeed. -/
theorem c1_counterexample :
    deserializeAny (JSON.obj
        [("one", JSON.intg 1), ("two", JSON.intg 2), ("three", JSON.intg 3)])
      = none
    ∧ deserializeAny (JSON.arr [JSON.intg 1, JSON.intg 2]) = none :=
  ⟨rfl, rfl⟩

/-- C1 (amended): deserializing a JSON node into a `dap::any` recovers the
matching variant for boolean, integer (value narrowed through a C `int`),
fractional number, string and null nodes, but fails on JSON object and JSON
array nodes. -/
theorem c1_amended :
    (∀ b, deserializeAny (JSON.bool b) = some (DapAny.boolean b))
    ∧ (∀ n, deserializeAny (JSON.intg n) = some (DapAny.integer (wrap32 n)))
    ∧ (∀ q, deserializeAny (JSON.flt q) = some (DapAny.number q))
    ∧ (∀ s, deserializeAny (JSON.str s) = some (DapAny.string s))
    ∧ deserializeAny JSON.null = some DapAny.null
    ∧ (∀ fields, deserializeAny (JSON.obj fields) = none)
    ∧ (∀ elems, deserializeAny (JSON.arr elems) = none) :=
  ⟨fun _ => rfl, fun _ => rfl, fun _ => rfl, fun _ => rfl, rfl,
    fun _ => rfl, fun _ => rfl⟩

/-- C3 counterexample: deserializing a `dap::object` from the non-object JSON
node `5` succeeds (yielding `{"": 5}`) instead of being a deserialization
error as the claim states: `deserialize(dap::object*)` never checks the node
type. -/
theorem c3_counterexample :
    deserializeObject (JSON.intg 5) = some [("", DapAny.integer 5)]
    ∧ JSON.isObj (JSON.intg 5) = false := by
  constructor
  · show deserializeObjectItems [("", JSON.intg 5)] [] = _
    simp [deserializeObjectItems, deserializeAny, mapUpdate]
    decide
  · rfl

/-- C3 (amended): deserializing booleans, integers, numbers and strings
succeeds exactly when the JSON node's type matches (an integer read fails on
a float-stored number; a number read accepts integer- and float-stored
numbers).  Deserializing a `dap::object`, however, performs no type check: it
succeeds if and only if every item the node yields under nlohmann iteration
(members of an object, indexed elements of an array, one item for a
non-null primitive, none for null) has a value that deserializes as `any` —
in particular it succeeds on any primitive or null node. -/
theorem c3_amended :
    (∀ j, (deserializeBoolean j).isSome = j.isBool)
    ∧ (∀ j, (deserializeInteger j).isSome = j.isIntg)
    ∧ (∀ j, (deserializeNumber j).isSome = (j.isIntg || j.isFlt))
    ∧ (∀ j, (deserializeString j).isSome = j.isStr)
    ∧ (∀ j, (deserializeObject j).isSome =
        (jsonItems j).all (fun kv => (deserializeAny kv.2).isSome)) := by
  refine ⟨fun j => ?_, fun j => ?_, fun j => ?_, fun j => ?_, fun j => ?_⟩
  · cases j <;> rfl
  · cases j <;> rfl
  · cases j <;> rfl
  · cases j <;> rfl
  · exact deserializeObjectItems_isSome (jsonItems j) []

/-- C6: if the generic framing/write step reports failure, `Session::send`
returns a future already fulfilled with `Error("Failed to send request")`
(response default-constructed); if it succeeds, the returned future is still
pending.  A future is returned in both cases. -/
theorem c6 (R : Type) [Inhabited R] :
    sessionSendRequest R false =
      some { response := default, error := { message := "Failed to send request" } }
    ∧ sessionSendRequest R true = none :=
  ⟨rfl, rfl⟩

/-- C7: the adapter built by `Session::registerHandler` routes the handler's
`ResponseOrError` result to the error callback exactly when the result
carries an error (its `Error` converts to true), passing the Response type's
descriptor and that error; otherwise to the success callback with the
descriptor and the response body. -/
theorem c7 {T R : Type} (respDesc : TypeDesc) (handler : T → RespOrErr R)
    (args : T) :
    (errorBool (handler args).error = true →
      registerHandlerAdapter respDesc handler Routed.success Routed.failure args
        = Routed.failure respDesc (handler args).error)
    ∧ (errorBool (handler args).error = false →
      registerHandlerAdapter respDesc handler Routed.success Routed.failure args
        = Routed.success respDesc (handler args).response) := by
  constructor <;> intro h <;> simp [registerHandlerAdapter, h]

/-- C7 witness: a handler returning an error is routed to the error callback;
a handler returning a response body is routed to the success callback. -/
theorem c7_witness :
    registerHandlerAdapter ⟨"TestResponse"⟩
        (fun _ : Int => (RespOrErr.ofError ⟨"boom"⟩ : RespOrErr Int))
        Routed.success Routed.failure 3
      = Routed.failure ⟨"TestResponse"⟩ ⟨"boom"⟩
    ∧ registerHandlerAdapter ⟨"TestResponse"⟩
        (fun n : Int => RespOrErr.ofResponse (n + n))
        Routed.success Routed.failure 3
      = Routed.success ⟨"TestResponse"⟩ 6 :=
  ⟨(c7 ⟨"TestResponse"⟩ (fun _ : Int => RespOrErr.ofError ⟨"boom"⟩) 3).1 rfl,
    (c7 ⟨"TestResponse"⟩ (fun n : Int => RespOrErr.ofResponse (n + n)) 3).2 rfl⟩

/-- C9 counterexample: when `recv` reports an error with a negative result,
`Socket::Shared::read` returns 0 — indistinguishable from end-of-stream — and
not the negative value the claim describes. -/
theorem c9_counterexample :
    socketSharedRead true (-1) = 0 ∧ ¬ socketSharedRead true (-1) < 0 := by
  constructor
  · rfl
  · decide

/-- C9 (amended): the return value of `Socket::Shared::read` is never
negative: a negative `recv` result (error) is mapped to 0, exactly the value
that also signals end-of-stream or an invalid socket; a positive `recv`
result is returned as the number of bytes read. -/
theorem c9_amended (ok : Bool) (r : Int) :
    0 ≤ socketSharedRead ok r
    ∧ (r < 0 → socketSharedRead ok r = 0)
    ∧ (0 ≤ r → socketSharedRead true r = r)
    ∧ socketSharedRead false r = 0 := by
  by_cases hr : r < 0 <;> cases ok <;> simp [socketSharedRead, hr]
  all_goals omega

/-- C9 witness: a `recv` error result of -7 reads as 0; a successful `recv`
of 5 bytes reads as 5. -/
theorem c9_witness :
    socketSharedRead true (-7) = 0 ∧ socketSharedRead true 5 = 5 :=
  ⟨(c9_amended true (-7)).2.1 (by decide), (c9_amended true 5).2.2.1 (by decide)⟩

/-- C10: `Error::operator bool()` is true exactly when the message string is
non-empty; consequently a request handler whose returned `Error` has an empty
message is treated as success and the adapter delivers the (default) response
body through the success callback. -/
theorem c10 {T R : Type} (e : DapError) (respDesc : TypeDesc)
    (handler : T → RespOrErr R) (args : T)
    (h : (handler args).error.message = "") :
    (errorBool e = true ↔ e.message ≠ "")
    ∧ registerHandlerAdapter respDesc handler Routed.success Routed.failure args
        = Routed.success respDesc (handler args).response := by
  constructor
  · rw [errorBool, decide_eq_true_iff]
    constructor
    · intro h1 h2
      rw [h2] at h1
      exact absurd h1 (by decide)
    · intro h1
      rcases Nat.eq_zero_or_pos e.message.length with h2 | h2
      · exact absurd (String.ext (List.length_eq_zero.mp h2)) h1
      · exact h2
  · have hb : errorBool (handler args).error = false := by
      rw [errorBool, h]
      decide
    simp [registerHandlerAdapter, hb]

/-- C10 witness: an `Error` with message "x" converts to true, and a handler
returning `Error("")` is routed to the success callback with the
default-constructed response body. -/
theorem c10_witness :
    (errorBool ⟨"x"⟩ = true ↔ ("x" : String) ≠ "")
    ∧ registerHandlerAdapter ⟨"TestResponse"⟩
        (fun _ : Unit => (RespOrErr.ofError ⟨""⟩ : RespOrErr Int))
        Routed.success Routed.failure ()
      = Routed.success ⟨"TestResponse"⟩ 0 :=
  c10 ⟨"x"⟩ ⟨"TestResponse"⟩
    (fun _ : Unit => (RespOrErr.ofError ⟨""⟩ : RespOrErr Int)) () rfl

theorem jsonLookup_append (l1 l2 : List (String × JSON)) (k : String)
    (h : jsonLookup l1 k = none) :
    jsonLookup (l1 ++ l2) k = jsonLookup l2 k := by
  induction l1 with
  | nil => rfl
  | cons kv rest ih =>
    obtain ⟨k1, v1⟩ := kv
    simp only [jsonLookup, List.cons_append] at h ⊢
    by_cases hk : k1 = k
    · simp [hk] at h
    · simp only [hk, if_false] at h ⊢
      exact ih h

theorem mapUpdate_append_last (l : List (String × JSON)) (k : String)
    (x v : JSON) (h : jsonLookup l k = none) :
    mapUpdate (l ++ [(k, x)]) k v = l ++ [(k, v)] := by
  induction l with
  | nil => simp [mapUpdate]
  | cons kv rest ih =>
    obtain ⟨k1, v1⟩ := kv
    simp only [jsonLookup] at h
    by_cases hk : k1 = k
    · simp [hk] at h
    · simp only [List.cons_append, mapUpdate, hk, if_false, List.append_eq]
      rw [ih (by simpa [hk] using h)]

theorem serializeAny_prim (v : DapAny) (h : v.isPrimVariant = true) :
    serializeAny v JSON.null = some (primJson v) := by
  cases v <;> first | rfl | simp [DapAny.isPrimVariant] at h

theorem serializeObjectEntries_acc (entries : List (String × DapAny)) :
    ∀ acc : List (String × JSON),
    (entries.map Prod.fst).Nodup →
    (∀ kv ∈ entries, jsonLookup acc kv.1 = none) →
    (∀ kv ∈ entries, kv.2.isPrimVariant = true) →
    serializeObjectEntries entries (JSON.obj acc) =
      some (JSON.obj (acc ++ entries.map (fun kv => (kv.1, primJson kv.2)))) := by
  induction entries with
  | nil => intro acc _ _ _; simp [serializeObjectEntries]
  | cons kv rest ih =>
    intro acc hnodup hdisj hprim
    obtain ⟨k, v⟩ := kv
    have hk : jsonLookup acc k = none := hdisj (k, v) (List.mem_cons_self _ _)
    have hens : memberEnsure acc k = acc ++ [(k, JSON.null)] := by
      simp [memberEnsure, hk]
    have hget : memberGet (acc ++ [(k, JSON.null)]) k = JSON.null := by
      simp [memberGet, jsonLookup_append _ _ _ hk, jsonLookup]
    have hser : serializeAny v JSON.null = some (primJson v) :=
      serializeAny_prim v (hprim (k, v) (List.mem_cons_self _ _))
    have hupd : mapUpdate (acc ++ [(k, JSON.null)]) k (primJson v)
        = acc ++ [(k, primJson v)] := mapUpdate_append_last acc k _ _ hk
    have hknotin : k ∉ (rest.map Prod.fst) := (List.nodup_cons.mp hnodup).1
    have ihr := ih (acc ++ [(k, primJson v)]) (List.nodup_cons.mp hnodup).2
      (by
        intro kv2 hmem
        have h1 : jsonLookup acc kv2.1 = none :=
          hdisj kv2 (List.mem_cons_of_mem _ hmem)
        rw [jsonLookup_append _ _ _ h1]
        have hne2 : k ≠ kv2.1 := by
          intro heq
          exact hknotin (heq ▸ List.mem_map_of_mem Prod.fst hmem)
        simp [jsonLookup, hne2])
      (fun kv2 hmem => hprim kv2 (List.mem_cons_of_mem _ hmem))
    simp only [serializeObjectEntries, jsonFieldsForWrite, hens, hget, hser,
      hupd, ihr]
    simp

/-- C2 counterexample: serializing the empty `dap::object` with a fresh
serializer leaves the JSON node null (the loop body never runs and nothing
turns the node into an object), so the result is a JSON null node, not a JSON
object node as the claim states. -/
theorem c2_counterexample :
    serializeObject [] = some JSON.null ∧ JSON.isObj JSON.null = false :=
  ⟨rfl, rfl⟩

/-- C2 (amended): serializing a NON-empty `dap::object` whose entry values
are variants the `any` serializer handles (boolean, integer, number, string,
null) produces a JSON object node whose members are exactly the object's
entries, each value serialized as an `any`; serializing the empty object
leaves the fresh serializer's node as JSON null instead of producing an
empty JSON object. -/
theorem c2_amended (entries : List (String × DapAny))
    (hne : entries ≠ [])
    (hnodup : (entries.map Prod.fst).Nodup)
    (hprim : ∀ kv ∈ entries, kv.2.isPrimVariant = true) :
    serializeObject entries =
      some (JSON.obj (entries.map (fun kv => (kv.1, primJson kv.2)))) := by
  match entries, hne with
  | (k, v) :: rest, _ =>
    have hstep : serializeObject ((k, v) :: rest)
        = serializeObjectEntries ((k, v) :: rest) (JSON.obj []) := rfl
    rw [hstep]
    exact serializeObjectEntries_acc ((k, v) :: rest) [] hnodup
      (fun kv2 _ => rfl) hprim

/-- C2 witness: the spec's example object `{one:1, two:2, three:3}` (integer
values) serializes to the JSON object `{"one":1,"two":2,"three":3}`. -/
theorem c2_witness :
    serializeObject
        [("one", DapAny.integer 1), ("two", DapAny.integer 2),
          ("three", DapAny.integer 3)]
      = some (JSON.obj
          [("one", JSON.intg 1), ("two", JSON.intg 2),
            ("three", JSON.intg 3)]) := by
  have h := c2_amended
      [("one", DapAny.integer 1), ("two", DapAny.integer 2),
        ("three", DapAny.integer 3)]
      (List.cons_ne_nil _ _) (by decide) (by decide)
  exact h

/-- C4: for an object JSON node and a field name not present in it, the
codec's `field` runs the field's deserialization callback against the
NullDeserializer; every NullDeserializer read — boolean, integer, number,
string, object, any, array and field — fails; consequently an optional
(integer) field stays absent while the optional read itself succeeds, and a
required integer field is a deserialization error. -/
theorem c4 {α β : Type} (fields : List (String × JSON)) (name n2 : String)
    (cb : Dsrlzr → Option α) (cb2 : Dsrlzr → Option β)
    (h : jsonLookup fields name = none) :
    dsrlzrField (.json (.obj fields)) name cb = cb .nullDeser
    ∧ dsrlzrBoolean .nullDeser = none
    ∧ dsrlzrInteger .nullDeser = none
    ∧ dsrlzrNumber .nullDeser = none
    ∧ dsrlzrString .nullDeser = none
    ∧ dsrlzrObject .nullDeser = none
    ∧ dsrlzrAny .nullDeser = none
    ∧ dsrlzrArray .nullDeser cb = none
    ∧ dsrlzrField .nullDeser n2 cb2 = none
    ∧ dsrlzrField (.json (.obj fields)) name
        (fun d => deserializeOptional d dsrlzrInteger) = some none
    ∧ dsrlzrField (.json (.obj fields)) name dsrlzrInteger = none := by
  refine ⟨?_, rfl, rfl, rfl, rfl, rfl, rfl, rfl, rfl, ?_, ?_⟩
  · simp [dsrlzrField, JSON.isStructured, h]
  · simp [dsrlzrField, JSON.isStructured, h, deserializeOptional,
      dsrlzrInteger]
  · simp [dsrlzrField, JSON.isStructured, h, dsrlzrInteger]

/-- C4 witness: the object `{"body": 7}` has no member "message"; its field
access hands the callback the NullDeserializer, every NullDeserializer read
fails, an optional integer read of "message" yields an absent optional, and
a required integer read of "message" fails. -/
theorem c4_witness :
    dsrlzrField (.json (.obj [("body", JSON.intg 7)])) "message"
        dsrlzrBoolean = dsrlzrBoolean .nullDeser
    ∧ dsrlzrBoolean .nullDeser = none
    ∧ dsrlzrInteger .nullDeser = none
    ∧ dsrlzrNumber .nullDeser = none
    ∧ dsrlzrString .nullDeser = none
    ∧ dsrlzrObject .nullDeser = none
    ∧ dsrlzrAny .nullDeser = none
    ∧ dsrlzrArray .nullDeser dsrlzrBoolean = none
    ∧ dsrlzrField .nullDeser "seq" dsrlzrString = none
    ∧ dsrlzrField (.json (.obj [("body", JSON.intg 7)])) "message"
        (fun d => deserializeOptional d dsrlzrInteger) = some none
    ∧ dsrlzrField (.json (.obj [("body", JSON.intg 7)])) "message"
        dsrlzrInteger = none :=
  c4 [("body", JSON.intg 7)] "message" "seq" dsrlzrBoolean dsrlzrString rfl

theorem jsonLookup_memberErase (l : List (String × JSON)) (name : String) :
    jsonLookup (memberErase l name) name = none := by
  induction l with
  | nil => rfl
  | cons kv rest ih =>
    obtain ⟨k, v⟩ := kv
    by_cases hk : k = name
    · simpa [memberErase, List.filter_cons, hk] using ih
    · simpa [memberErase, List.filter_cons, hk, jsonLookup] using ih

/-- C5: if the field's callback marks the sub-serializer removed, the member
is erased, so the field's name is absent from the resulting JSON object; in
particular an absent optional (modelled from the spec's optional serializer,
which calls `remove()` when the optional has no value) is omitted from the
output object rather than emitted as null. -/
theorem c5 (fields : List (String × JSON)) (name : String)
    (cb : JSON → Option (JSON × Bool)) (jv : JSON)
    (ser : Int → JSON → Option JSON)
    (h : cb (memberGet (memberEnsure fields name) name) = some (jv, true)) :
    serializerField (.obj fields) name cb
      = some (.obj
          (memberErase (mapUpdate (memberEnsure fields name) name jv) name))
    ∧ jsonLookup
        (memberErase (mapUpdate (memberEnsure fields name) name jv) name)
        name = none
    ∧ serializerField (.obj fields) name (serializeOptional ser none)
      = some (.obj
          (memberErase
            (mapUpdate (memberEnsure fields name) name
              (memberGet (memberEnsure fields name) name)) name))
    ∧ jsonLookup
        (memberErase
          (mapUpdate (memberEnsure fields name) name
            (memberGet (memberEnsure fields name) name)) name)
        name = none := by
  refine ⟨?_, jsonLookup_memberErase _ _, ?_, jsonLookup_memberErase _ _⟩
  · simp [serializerField, jsonFieldsForWrite, h]
  · simp [serializerField, jsonFieldsForWrite, serializeOptional]

/-- C5 witness: writing the object `{"a": 1}` through a field "opt" whose
callback marks itself removed (as the absent-optional serializer does) leaves
the output object without a member "opt". -/
theorem c5_witness :
    serializerField (.obj [("a", JSON.intg 1)]) "opt"
        (fun j => some (j, true))
      = some (.obj [("a", JSON.intg 1)])
    ∧ jsonLookup [("a", JSON.intg 1)] "opt" = none
    ∧ serializerField (.obj [("a", JSON.intg 1)]) "opt"
        (serializeOptional (fun (i : Int) _ => some (JSON.intg i)) none)
      = some (.obj [("a", JSON.intg 1)])
    ∧ jsonLookup [("a", JSON.intg 1)] "opt" = none := by
  have h := c5 [("a", JSON.intg 1)] "opt" (fun j => some (j, true)) JSON.null
    (fun (i : Int) _ => some (JSON.intg i)) rfl
  exact h

theorem clPat_colon :
    ∀ j : Fin clPat.length, clPat.get j = ':' → (j : Nat) = 14 := by
  decide

theorem clPat_no_early_match (g t : List Char) (hg : ∀ c ∈ g, c ≠ ':')
    (hne : g ≠ []) : ¬ clPat <+: (g ++ (clPat ++ t)) := by
  intro hp
  have hglen : 1 ≤ g.length := by
    cases g with
    | nil => exact absurd rfl hne
    | cons c r => simp
  have hlen15 : clPat.length = 15 := rfl
  have htake : clPat = g.take 15 ++ (clPat ++ t).take (15 - g.length) := by
    have h1 := List.prefix_iff_eq_take.mp hp
    rw [hlen15] at h1
    rw [List.take_append_eq_append_take] at h1
    exact h1
  have hcount : clPat.count ':' = 1 := by decide
  have hcg : (g.take 15).count ':' = 0 := by
    rw [List.count_eq_zero]
    intro hmem
    exact hg ':' (List.take_subset 15 g hmem) rfl
  have hcp : ((clPat ++ t).take (15 - g.length)).count ':' = 0 := by
    by_cases hc : 15 ≤ g.length
    · have : 15 - g.length = 0 := by omega
      rw [this]
      rfl
    · have hm : 15 - g.length ≤ 14 := by omega
      rw [List.take_append_eq_append_take]
      have ht0 : 15 - g.length - clPat.length = 0 := by omega
      rw [ht0, List.take_zero, List.append_nil, List.count_eq_zero]
      intro hmem
      have hsub : clPat.take (15 - g.length) ⊆ clPat.take 14 := by
        rw [show clPat.take (15 - g.length) = (clPat.take 14).take (15 - g.length) by
          rw [List.take_take, Nat.min_eq_left hm]]
        exact List.take_subset _ _
      have : (':' : Char) ∈ clPat.take 14 := hsub hmem
      revert this
      decide
  have := congrArg (List.count ':') htake
  rw [hcount, List.count_append, hcg, hcp] at this
  exact absurd this (by decide)

theorem scanFor_here (pat s : List Char) (h : pat.isPrefixOf s = true) :
    scanFor pat s = some (s.drop pat.length) := by
  cases s with
  | nil => simp [scanFor, h]
  | cons c rest => simp [scanFor, h]

theorem scanFor_through (g t : List Char) (hg : ∀ c ∈ g, c ≠ ':') :
    scanFor clPat (g ++ (clPat ++ t)) = some t := by
  induction g with
  | nil =>
    rw [List.nil_append,
      scanFor_here clPat (clPat ++ t)
        ( List.isPrefixOf_iff_prefix.mpr (List.prefix_append clPat t))]
    rw [List.drop_left]
  | cons c g ih =>
    have hnp : ¬ clPat.isPrefixOf ((c :: g) ++ (clPat ++ t)) = true := by
      intro hpre
      exact clPat_no_early_match (c :: g) t hg (List.cons_ne_nil c g)
        ( List.isPrefixOf_iff_prefix.mp hpre)
    have : (c :: g) ++ (clPat ++ t) = c :: (g ++ (clPat ++ t)) := rfl
    rw [this]
    rw [this] at hnp
    simp only [scanFor, hnp, if_false, Bool.false_eq_true]
    exact ih (fun c2 h2 => hg c2 (List.mem_cons_of_mem c h2))

theorem scanFor_none (g : List Char) (hg : ∀ c ∈ g, c ≠ ':') :
    scanFor clPat g = none := by
  induction g with
  | nil => rfl
  | cons c g ih =>
    have hnp : ¬ clPat.isPrefixOf (c :: g) = true := by
      intro hpre
      have hsub := ( List.isPrefixOf_iff_prefix.mp hpre).subset
      have : (':' : Char) ∈ c :: g := hsub (by decide)
      exact hg ':' this rfl
    simp only [scanFor, hnp, if_false, Bool.false_eq_true]
    exact ih (fun c2 h2 => hg c2 (List.mem_cons_of_mem c h2))

theorem takeWhile_all_append (p : Char → Bool) (l : List Char) (a : Char)
    (r : List Char) (hl : ∀ c ∈ l, p c = true) (ha : p a = false) :
    (l ++ a :: r).takeWhile p = l ∧ (l ++ a :: r).dropWhile p = a :: r := by
  induction l with
  | nil => simp [List.takeWhile_cons, List.dropWhile_cons, ha]
  | cons c l ih =>
    have hc : p c = true := hl c (List.mem_cons_self c l)
    have ih2 := ih (fun c2 h2 => hl c2 (List.mem_cons_of_mem c h2))
    simp [List.takeWhile_cons, List.dropWhile_cons, hc, ih2.1, ih2.2]

theorem digit_not_blank (c : Char) (h : c.isDigit = true) :
    (decide (c = ' ') || decide (c = '\t')) = false := by
  by_cases h1 : c = ' '
  · rw [h1] at h
    exact absurd h (by decide)
  · by_cases h2 : c = '\t'
    · rw [h2] at h
      exact absurd h (by decide)
    · simp [h1, h2]

theorem contentRead_frame (g ds p rest : List Char)
    (hg : ∀ c ∈ g, c ≠ ':') (hds : ds ≠ [])
    (hdig : ∀ c ∈ ds, c.isDigit = true)
    (hlen : parseDecimal ds = p.length) :
    contentRead (g ++ (frameFor ds p ++ rest)) = some (p, rest) := by
  have hshape : g ++ (frameFor ds p ++ rest)
      = g ++ (clPat ++ (' ' :: (ds ++ ('\r' :: '\n' :: '\r' :: '\n' :: (p ++ rest))))) := by
    simp [frameFor, crlf2, List.append_assoc]
  rw [hshape]
  unfold contentRead
  rw [scanFor_through g _ hg]
  have hblank : (' ' :: (ds ++ ('\r' :: '\n' :: '\r' :: '\n' :: (p ++ rest)))).dropWhile
      (fun c => decide (c = ' ') || decide (c = '\t'))
      = ds ++ ('\r' :: '\n' :: '\r' :: '\n' :: (p ++ rest)) := by
    rw [List.dropWhile_cons, if_pos (by decide)]
    cases ds with
    | nil => exact absurd rfl hds
    | cons d ds2 =>
      rw [List.cons_append, List.dropWhile_cons]
      have hd : (decide (d = ' ') || decide (d = '\t')) = false :=
        digit_not_blank d (hdig d (List.mem_cons_self d ds2))
      simp [hd]
  have htw := takeWhile_all_append Char.isDigit ds '\r'
    ('\n' :: '\r' :: '\n' :: (p ++ rest)) hdig (by decide)
  simp only [hblank, htw.1, htw.2]
  rw [if_neg (by simpa using hds)]
  have hpre : crlf2.isPrefixOf ('\r' :: '\n' :: '\r' :: '\n' :: (p ++ rest)) = true := by
    have : ('\r' :: '\n' :: '\r' :: '\n' :: (p ++ rest)) = crlf2 ++ (p ++ rest) := rfl
    rw [this]
    exact List.isPrefixOf_iff_prefix.mpr (List.prefix_append crlf2 (p ++ rest))
  rw [if_pos hpre]
  have hdrop : ('\r' :: '\n' :: '\r' :: '\n' :: (p ++ rest)).drop 4 = p ++ rest := rfl
  rw [hdrop, hlen]
  rw [if_pos (by simp [List.length_append])]
  rw [List.take_left, List.drop_left]

theorem contentReadAll_step (fuel : Nat) (s p rest : List Char)
    (h : contentRead s = some (p, rest)) :
    contentReadAll (fuel + 1) s = p :: contentReadAll fuel rest := by
  simp [contentReadAll, h]

theorem contentReadAll_stop (fuel : Nat) (s : List Char)
    (h : contentRead s = none) :
    contentReadAll (fuel + 1) s = [] := by
  simp [contentReadAll, h]

theorem contentRead_garbage (g : List Char) (hg : ∀ c ∈ g, c ≠ ':') :
    contentRead g = none := by
  unfold contentRead
  rw [scanFor_none g hg]

/-- C8: a stream of n framed payloads, each frame preceded by a run of
unrecognized garbage bytes (formalized: bytes that contain no colon, so they
can neither contain nor complete a `Content-Length:` header) and followed by
trailing garbage, deframes under successive `read()` calls to exactly the n
payloads in order, after which the next read returns empty at end-of-stream;
the garbage before each `Content-Length` header is discarded. -/
theorem c8 (segs : List (List Char × List Char × List Char))
    (gEnd : List Char) (hsegs : ∀ t ∈ segs, segOk t)
    (hend : ∀ c ∈ gEnd, c ≠ ':') :
    contentReadAll (segs.length + 1) (framedStream segs gEnd)
      = segs.map (fun t => t.2.2) := by
  induction segs with
  | nil =>
    simp only [framedStream, List.length_nil, List.map_nil]
    exact contentReadAll_stop 0 gEnd (contentRead_garbage gEnd hend)
  | cons t rest ih =>
    obtain ⟨g, ds, p⟩ := t
    obtain ⟨h1, h2, h3, h4⟩ := hsegs (g, ds, p) (List.mem_cons_self _ _)
    have hr : framedStream ((g, ds, p) :: rest) gEnd
        = g ++ (frameFor ds p ++ framedStream rest gEnd) := by
      simp [framedStream, List.append_assoc]
    simp only [List.length_cons, List.map_cons, hr]
    rw [contentReadAll_step (rest.length + 1) _ p (framedStream rest gEnd)
      (contentRead_frame g ds p (framedStream rest gEnd) h1 h2 h3 h4)]
    rw [ih (fun t2 hm => hsegs t2 (List.mem_cons_of_mem _ hm))]

/-- C8 witness: the stream
`Content-Length: 2\r\n\r\nhi` + `xy` + `Content-Length: 1\r\n\r\nz` + `gg`
deframes to the payloads `hi` then `z`, and the following read returns
empty. -/
theorem c8_witness :
    contentReadAll 3
        (framedStream
          [([], ['2'], ['h', 'i']), (['x', 'y'], ['1'], ['z'])]
          ['g', 'g'])
      = [['h', 'i'], ['z']] := by
  have h := c8 [([], ['2'], ['h', 'i']), (['x', 'y'], ['1'], ['z'])]
    ['g', 'g']
    (by
      intro t ht
      simp only [List.mem_cons, List.not_mem_nil, or_false] at ht
      rcases ht with h | h <;> subst h <;>
        exact ⟨by decide, by decide, by decide, by decide⟩)
    (by decide)
  exact h

/-- C6 witness: at a concrete response type, the failed-send future is
already fulfilled with `Error("Failed to send request")` and the
successful-send future is pending. -/
theorem c6_witness :
    sessionSendRequest Int false =
      some { response := 0, error := { message := "Failed to send request" } }
    ∧ sessionSendRequest Int true = none :=
  c6 Int
